import Mathlib

/-!
Verification of the master session loop of the dnp3 repository.

This file shallowly embeds the code of src/dnp3/src/master/session.rs
(struct MasterSession and its methods) together with the ControlCode
conversions of src/src/app/types.rs.  Pure data is translated directly;
the async methods are translated into pure state-passing functions that
additionally return the ordered list of side effects (transport writes,
user callbacks, IIN applications, warnings) they perform, and the
select-loops become structural recursion over an explicit list of the
events the loop can race on (popped fragments, timer expiry, link
failures, control-queue messages).

Collaborating code that is not part of the sources (AssociationMap,
Sequence, the task trait objects, the error enums) is modelled from the
specification; each such definition carries a doc comment saying so.
-/

/-- A link-layer error.  The payload is opaque; only identity matters. -/
structure LinkError where
  code : Nat
deriving DecidableEq, Repr

/-- An object-parse error (spec section 6: the objects of a popped
response are a Result of a header collection or a parse error). -/
structure ObjectParseError where
  code : Nat
deriving DecidableEq, Repr

/-- Modelled from the spec (section 7, error taxonomy): the task error
kinds carried by task-failure callbacks.  The error enum itself
(master/error.rs) is not among the sources; the variants are exactly the
rows of the spec table. -/
inductive TaskError
| shutdown
| lower (e : LinkError)
| responseTimeout
| multiFragmentResponse
| unexpectedFir
| neverReceivedFir
| nonFinWithoutCon
| noSuchAssociation (addr : Nat)
| badResponse (e : ObjectParseError)
| unexpectedResponseHeaders
| writeError
deriving DecidableEq, Repr

/-- RunError from session.rs lines 24-28: either a link error or shutdown. -/
inductive RunError
| link (e : LinkError)
| shutdown
deriving DecidableEq, Repr

/-- The application-layer control field of a fragment header:
FIR, FIN, CON bits and the 4-bit sequence number. -/
structure ControlField where
  fir : Bool
  fin : Bool
  con : Bool
  seq : Nat
deriving DecidableEq, Repr

/-- Control::is_fir_and_fin from the application header code. -/
def ControlField.is_fir_and_fin (c : ControlField) : Bool :=
  c.fir && c.fin

/-- The function code of a received fragment.  Only the distinction the
session consults (FunctionCode::is_unsolicited) is retained. -/
inductive FunctionKind
| response
| unsolicitedResponse
deriving DecidableEq, Repr

/-- FunctionCode::is_unsolicited: true exactly for unsolicited responses. -/
def FunctionKind.is_unsolicited : FunctionKind → Bool
| .response => false
| .unsolicitedResponse => true

/-- A response header as popped from the transport reader:
function code, control field, and the IIN bits (opaque Nat). -/
structure ResponseHeader where
  function : FunctionKind
  control : ControlField
  iin : Nat
deriving DecidableEq, Repr

/-- A popped response: header plus the object headers, which are either a
parsed collection (opaque Nat) or a parse error, as in the reader
contract of spec section 6. -/
structure Response where
  header : ResponseHeader
  objects : Except ObjectParseError Nat
deriving Repr

/-- Modelled from the spec (section 3): per-peer association state.  The
association code is not among the sources; the fields kept are the ones
the session methods touch: the address, the 4-bit request sequence
counter, the fixed verdict its unsolicited handler returns, and the
error it was last reset with (None while live). -/
structure Association where
  address : Nat
  seq : Nat
  unsolValid : Bool
  resetWith : Option RunError
deriving DecidableEq, Repr

/-- Modelled from the spec (section 3): Sequence::increment returns the
current 4-bit value and advances the stored counter modulo 16 ("that seq
advances by 1 (mod 16) per outbound request"). -/
def Association.increment_seq (a : Association) : Nat × Association :=
  (a.seq, { a with seq := (a.seq + 1) % 16 })

/-- Modelled from the spec (section 4.7): Association::reset cancels
in-flight expectations, recording the run error. -/
def Association.reset (a : Association) (err : RunError) : Association :=
  { a with resetWith := some err }

/-- Modelled from the spec (section 3): AssociationMap lookup by
endpoint address; None plays the role of the NoSuchAssociation error. -/
def AssociationMap.get_mut (m : List Association) (addr : Nat) : Option Association :=
  m.find? (fun a => a.address == addr)

/-- Replace the association with the given address (the effect of
mutating through get_mut). -/
def AssociationMap.put (m : List Association) (addr : Nat) (a : Association) : List Association :=
  m.map (fun x => if x.address == addr then a else x)

/-- Modelled from the spec (section 4.5): AssociationMap::register adds
the association, failing (false) on a duplicate address. -/
def AssociationMap.register (m : List Association) (a : Association) : List Association × Bool :=
  if m.any (fun x => x.address == a.address) then (m, false) else (m ++ [a], true)

/-- Modelled from the spec (section 4.5): AssociationMap::remove. -/
def AssociationMap.remove (m : List Association) (addr : Nat) : List Association :=
  m.filter (fun x => x.address != addr)

/-- Modelled from the spec (section 4.7): AssociationMap::reset resets
every association with the run error. -/
def AssociationMap.reset (m : List Association) (err : RunError) : List Association :=
  m.map (fun a => a.reset err)

/-- The master session state (session.rs lines 30-36): decode level,
response timeout, the association map, and the TX buffer (its size). -/
structure MasterSession where
  level : Nat
  timeout : Nat
  associations : List Association
  txBufferSize : Nat
deriving DecidableEq, Repr

/-- session.rs line 45. -/
def MasterSession.DEFAULT_TX_BUFFER_SIZE : Nat := 2048

/-- session.rs line 46. -/
def MasterSession.MIN_TX_BUFFER_SIZE : Nat := 249

/-- session.rs line 48. -/
def MasterSession.DEFAULT_RX_BUFFER_SIZE : Nat := 2048

/-- session.rs line 49. -/
def MasterSession.MIN_RX_BUFFER_SIZE : Nat := 2048

/-- MasterSession::new (session.rs lines 51-71): clamp the requested TX
buffer size up to MIN_TX_BUFFER_SIZE, start with an empty association
map. -/
def MasterSession.new (level : Nat) (response_timeout : Nat) (tx_buffer_size : Nat) : MasterSession :=
  let size := if tx_buffer_size < MasterSession.MIN_TX_BUFFER_SIZE then
    MasterSession.MIN_TX_BUFFER_SIZE else tx_buffer_size
  { level := level, timeout := response_timeout, associations := [], txBufferSize := size }

/-- The observable side effects of the session, in program order:
transport writes (requests and confirmations), IIN application, user
callbacks, deadline computation and log warnings. -/
inductive Event
| sendRequest (dest : Nat) (seq : Nat)
| deadlineSet
| confirmSolicited (dest : Nat) (seq : Nat)
| confirmUnsolicited (dest : Nat) (seq : Nat)
| processIin (addr : Nat) (iin : Nat)
| taskHandle (addr : Nat) (iin : Nat)
| readTaskResponse (addr : Nat) (iin : Nat)
| unsolHandler (addr : Nat) (iin : Nat) (valid : Bool)
| onTaskError (err : TaskError)
| taskComplete (addr : Nat)
| warn
| addAssociationResult (ok : Bool)
| getLevelResult (level : Nat)
| assocMsgApplied (addr : Nat) (connected : Bool)
| assocFailure (addr : Nat) (err : TaskError)
deriving DecidableEq, Repr

/-- Is the event a confirmation write (solicited or unsolicited)? -/
def Event.isConfirm : Event → Bool
| .confirmSolicited _ _ => true
| .confirmUnsolicited _ _ => true
| _ => false

/-- Is the event an outbound request write? -/
def Event.isSendRequest : Event → Bool
| .sendRequest _ _ => true
| _ => false

/-- Is the event a deadline computation (Timeout::deadline_from_now)? -/
def Event.isDeadlineSet : Event → Bool
| .deadlineSet => true
| _ => false

/-- Is the event an IIN application to an association? -/
def Event.isProcessIin : Event → Bool
| .processIin _ _ => true
| _ => false

/-- Is the event a delivery to a task handler or user callback? -/
def Event.isHandlerCall : Event → Bool
| .taskHandle _ _ => true
| .readTaskResponse _ _ => true
| .unsolHandler _ _ _ => true
| _ => false

/-- MasterSession::confirm_solicited (session.rs lines 601-617): encode
and write a solicited confirm carrying the given sequence number. -/
def MasterSession.confirm_solicited (dest : Nat) (seq : Nat) : List Event :=
  [Event.confirmSolicited dest seq]

/-- MasterSession::confirm_unsolicited (session.rs lines 619-636). -/
def MasterSession.confirm_unsolicited (dest : Nat) (seq : Nat) : List Event :=
  [Event.confirmUnsolicited dest seq]

/-- MasterSession::send_request (session.rs lines 638-659): look up the
association (None makes the NoSuchAssociation error), take its current
sequence number and advance it, and write the request.  Returns the new
state, the write trace and the sequence number used. -/
def MasterSession.send_request (s : MasterSession) (address : Nat) :
    Option (MasterSession × List Event × Nat) :=
  match AssociationMap.get_mut s.associations address with
  | none => none
  | some a =>
    let (seq, a2) := a.increment_seq
    some ({ s with associations := AssociationMap.put s.associations address a2 },
      [Event.sendRequest address seq], seq)

/-- The session state after send_request (or the read path's
increment_seq through get_mut) advanced the association's sequence
counter: the association is replaced by a copy with seq advanced modulo
16. -/
def MasterSession.bump_seq (s : MasterSession) (dest : Nat) (a : Association) : MasterSession :=
  { s with associations :=
      AssociationMap.put s.associations dest { a with seq := (a.seq + 1) % 16 } }

/-- MasterSession::handle_unsolicited (session.rs lines 564-596): look
up the association by the source address (unknown: warn and drop);
apply the IIN, invoke the unsolicited handler, and send an unsolicited
confirm iff the handler returned valid and the fragment has CON set. -/
def MasterSession.handle_unsolicited (s : MasterSession) (source : Nat) (r : Response) :
    MasterSession × List Event × Except LinkError Unit :=
  match AssociationMap.get_mut s.associations source with
  | none => (s, [Event.warn], Except.ok ())
  | some a =>
    let pre := [Event.processIin source r.header.iin,
                Event.unsolHandler source r.header.iin a.unsolValid]
    if a.unsolValid && r.header.control.con then
      (s, pre ++ MasterSession.confirm_unsolicited source r.header.control.seq, Except.ok ())
    else
      (s, pre, Except.ok ())

/-- MasterSession::validate_non_read_response (session.rs lines
339-383): classify a popped fragment during a non-read exchange.
None continues the wait; Some delivers the response; errors fail the
task. -/
def MasterSession.validate_non_read_response (s : MasterSession) (destination : Nat)
    (seq : Nat) (popped : Option (Nat × Response)) :
    MasterSession × List Event × Except TaskError (Option Response) :=
  match popped with
  | none => (s, [], Except.ok none)
  | some (source, r) =>
    if r.header.function.is_unsolicited then
      match MasterSession.handle_unsolicited s source r with
      | (s2, tr, Except.ok _) => (s2, tr, Except.ok none)
      | (s2, tr, Except.error e) => (s2, tr, Except.error (TaskError.lower e))
    else if source != destination then
      (s, [Event.warn], Except.ok none)
    else if r.header.control.seq != seq then
      (s, [Event.warn], Except.ok none)
    else if !r.header.control.is_fir_and_fin then
      (s, [], Except.error TaskError.multiFragmentResponse)
    else
      (s, [], Except.ok (some r))

/-- ReadResponseAction (session.rs lines 38-42). -/
inductive ReadResponseAction
| ignore
| readNext
| complete
deriving DecidableEq, Repr

/-- Modelled from the spec (section 3): a read task is an opaque request
plus its user handler; only an identity is kept here.  Delivery to the
handler is the readTaskResponse trace event. -/
structure ReadTask where
  id : Nat
deriving DecidableEq, Repr

/-- MasterSession::process_read_response (session.rs lines 460-528):
classify a popped fragment during a read exchange.  Mismatched fragments
are ignored with a warning; FIR/FIN/CON faults fail the task; an
accepted fragment is delivered to the read task handler
(ReadTask::process_response, modelled from spec section 4.3 step 3 as
delivery of the parsed objects to the read handler), then confirmed when
CON is set, and completes the task when FIN is set. -/
def MasterSession.process_read_response (s : MasterSession) (destination : Nat)
    (is_first : Bool) (seq : Nat) (_task : ReadTask) (popped : Option (Nat × Response)) :
    MasterSession × List Event × Except TaskError ReadResponseAction :=
  match popped with
  | none => (s, [], Except.ok ReadResponseAction.ignore)
  | some (source, r) =>
    if r.header.function.is_unsolicited then
      match MasterSession.handle_unsolicited s source r with
      | (s2, tr, Except.ok _) => (s2, tr, Except.ok ReadResponseAction.ignore)
      | (s2, tr, Except.error e) => (s2, tr, Except.error (TaskError.lower e))
    else if source != destination then
      (s, [Event.warn], Except.ok ReadResponseAction.ignore)
    else if r.header.control.seq != seq then
      (s, [Event.warn], Except.ok ReadResponseAction.ignore)
    else if r.header.control.fir && !is_first then
      (s, [], Except.error TaskError.unexpectedFir)
    else if !r.header.control.fir && is_first then
      (s, [], Except.error TaskError.neverReceivedFir)
    else if !r.header.control.fin && !r.header.control.con then
      (s, [], Except.error TaskError.nonFinWithoutCon)
    else
      match AssociationMap.get_mut s.associations destination with
      | none => (s, [], Except.error (TaskError.noSuchAssociation destination))
      | some _ =>
        match r.objects with
        | Except.error e => (s, [], Except.error (TaskError.badResponse e))
        | Except.ok _ =>
          let deliver := [Event.readTaskResponse destination r.header.iin]
          let tr := if r.header.control.con then
            deliver ++ MasterSession.confirm_solicited destination seq else deliver
          if r.header.control.fin then
            (s, tr, Except.ok ReadResponseAction.complete)
          else
            (s, tr, Except.ok ReadResponseAction.readNext)

/-- Master-level control messages (session.rs lines 190-205; the message
types of master/messages.rs are modelled from spec section 4.5). -/
inductive MasterMsg
| addAssociation (a : Association)
| removeAssociation (addr : Nat)
| setDecodeLogLevel (level : Nat)
| getDecodeLogLevel
deriving DecidableEq, Repr

/-- A control-queue message: master-level, or targeted at one
association (details opaque). -/
inductive MessageKind
| master (m : MasterMsg)
| association (addr : Nat)
deriving DecidableEq, Repr

/-- MasterSession::process_master_message (session.rs lines 190-205). -/
def MasterSession.process_master_message (s : MasterSession) :
    MasterMsg → MasterSession × List Event
| MasterMsg.addAssociation a =>
  match AssociationMap.register s.associations a with
  | (m, ok) => ({ s with associations := m }, [Event.addAssociationResult ok])
| MasterMsg.removeAssociation addr =>
  ({ s with associations := AssociationMap.remove s.associations addr }, [])
| MasterMsg.setDecodeLogLevel level => ({ s with level := level }, [])
| MasterMsg.getDecodeLogLevel => (s, [Event.getLevelResult s.level])

/-- MasterSession::process_message (session.rs lines 171-188): a closed
queue (None) is the only error (Shutdown); an association message whose
address is unknown invokes the message's failure callback
(on_association_failure, modelled from spec section 4.5: the callback
receives NoSuchAssociation) and still returns Ok. -/
def MasterSession.process_message (s : MasterSession) (is_connected : Bool) :
    Option MessageKind → MasterSession × List Event × Except RunError Unit
| none => (s, [], Except.error RunError.shutdown)
| some (MessageKind.master m) =>
  match MasterSession.process_master_message s m with
  | (s2, tr) => (s2, tr, Except.ok ())
| some (MessageKind.association addr) =>
  match AssociationMap.get_mut s.associations addr with
  | some _ => (s, [Event.assocMsgApplied addr is_connected], Except.ok ())
  | none =>
    (s, [Event.assocFailure addr (TaskError.noSuchAssociation addr)], Except.ok ())

/-- One event the waiting loops can race on (session.rs
read_next_response, lines 207-230): a transport read completing (with
the fragment, if any, that pop_response then yields), the response
deadline expiring, a link failure from the reader, or a control-queue
message. -/
inductive WaitEvent
| fragment (popped : Option (Nat × Response))
| timeout
| linkFail (e : LinkError)
| message (m : Option MessageKind)

/-- Modelled from the spec (section 3): a non-read task is its identity
plus what Task::handle returns on a valid response: None (complete) or
Some(next) for a multi-step protocol such as select-before-operate. -/
inductive NonReadTask
| mk (id : Nat) (next : Option NonReadTask)

/-- The continuation the task's handle returns on a valid response. -/
def NonReadTask.next : NonReadTask → Option NonReadTask
| NonReadTask.mk _ n => n

/-- The identity of the task. -/
def NonReadTask.id : NonReadTask → Nat
| NonReadTask.mk i _ => i

/-- The outcome of one task exchange: the task returned (success or a
task error), or the modelled event list ran out while the exchange was
still waiting. -/
inductive TaskOutcome
| done (r : Except TaskError Unit)
| pending
deriving Repr

/-- The inner/outer loops of MasterSession::run_non_read_task
(session.rs lines 274-335), entered after the request carrying seq was
written: race the deadline, the reader and the control queue
(read_next_response); classify popped fragments with
validate_non_read_response; on a delivered response apply the IIN and
call the task's handle, either finishing or sending the next request
and restarting the exchange. -/
def MasterSession.nonReadLoop (s : MasterSession) (destination : Nat) (task : NonReadTask)
    (seq : Nat) : List WaitEvent → MasterSession × List Event × TaskOutcome
| [] => (s, [], TaskOutcome.pending)
| WaitEvent.timeout :: _ =>
  (s, [Event.onTaskError TaskError.responseTimeout],
    TaskOutcome.done (Except.error TaskError.responseTimeout))
| WaitEvent.linkFail e :: _ =>
  (s, [Event.onTaskError (TaskError.lower e)],
    TaskOutcome.done (Except.error (TaskError.lower e)))
| WaitEvent.message m :: rest =>
  match MasterSession.process_message s true m with
  | (s2, tr, Except.error _) =>
    (s2, tr ++ [Event.onTaskError TaskError.shutdown],
      TaskOutcome.done (Except.error TaskError.shutdown))
  | (s2, tr, Except.ok _) =>
    match MasterSession.nonReadLoop s2 destination task seq rest with
    | (s3, tr2, out) => (s3, tr ++ tr2, out)
| WaitEvent.fragment p :: rest =>
  match MasterSession.validate_non_read_response s destination seq p with
  | (s2, tr, Except.error e) =>
    (s2, tr ++ [Event.onTaskError e], TaskOutcome.done (Except.error e))
  | (s2, tr, Except.ok none) =>
    match MasterSession.nonReadLoop s2 destination task seq rest with
    | (s3, tr2, out) => (s3, tr ++ tr2, out)
  | (s2, tr, Except.ok (some r)) =>
    match AssociationMap.get_mut s2.associations destination with
    | none =>
      (s2, tr ++ [Event.onTaskError (TaskError.noSuchAssociation destination)],
        TaskOutcome.done (Except.error (TaskError.noSuchAssociation destination)))
    | some _ =>
      let tr2 := tr ++ [Event.processIin destination r.header.iin,
                        Event.taskHandle destination r.header.iin]
      match task.next with
      | none => (s2, tr2, TaskOutcome.done (Except.ok ()))
      | some nt =>
        match MasterSession.send_request s2 destination with
        | none =>
          (s2, tr2 ++ [Event.onTaskError (TaskError.noSuchAssociation destination)],
            TaskOutcome.done (Except.error (TaskError.noSuchAssociation destination)))
        | some (s3, str, nseq) =>
          match MasterSession.nonReadLoop s3 destination nt nseq rest with
          | (s4, tr3, out) => (s4, tr2 ++ str ++ [Event.deadlineSet] ++ tr3, out)

/-- MasterSession::run_non_read_task (session.rs lines 274-335): send
the initial request (a failure invokes on_task_error and fails the
task), compute the response deadline, then run the wait loop. -/
def MasterSession.run_non_read_task (s : MasterSession) (destination : Nat)
    (task : NonReadTask) (events : List WaitEvent) :
    MasterSession × List Event × TaskOutcome :=
  match MasterSession.send_request s destination with
  | none =>
    (s, [Event.onTaskError (TaskError.noSuchAssociation destination)],
      TaskOutcome.done (Except.error (TaskError.noSuchAssociation destination)))
  | some (s2, tr, seq) =>
    match MasterSession.nonReadLoop s2 destination task seq events with
    | (s3, tr2, out) => (s3, tr ++ [Event.deadlineSet] ++ tr2, out)

/-- The loops of MasterSession::execute_read_task (session.rs lines
416-457), entered after the initial request: pop and classify fragments
until a FIN fragment completes the task; a ReadNext action advances the
association sequence number and waits for the next fragment on a fresh
deadline. -/
def MasterSession.readLoop (s : MasterSession) (destination : Nat) (task : ReadTask)
    (is_first : Bool) (seq : Nat) : List WaitEvent → MasterSession × List Event × TaskOutcome
| [] => (s, [], TaskOutcome.pending)
| WaitEvent.timeout :: _ =>
  (s, [], TaskOutcome.done (Except.error TaskError.responseTimeout))
| WaitEvent.linkFail e :: _ =>
  (s, [], TaskOutcome.done (Except.error (TaskError.lower e)))
| WaitEvent.message m :: rest =>
  match MasterSession.process_message s true m with
  | (s2, tr, Except.error _) =>
    (s2, tr, TaskOutcome.done (Except.error TaskError.shutdown))
  | (s2, tr, Except.ok _) =>
    match MasterSession.readLoop s2 destination task is_first seq rest with
    | (s3, tr2, out) => (s3, tr ++ tr2, out)
| WaitEvent.fragment p :: rest =>
  match MasterSession.process_read_response s destination is_first seq task p with
  | (s2, tr, Except.error e) => (s2, tr, TaskOutcome.done (Except.error e))
  | (s2, tr, Except.ok ReadResponseAction.complete) =>
    (s2, tr, TaskOutcome.done (Except.ok ()))
  | (s2, tr, Except.ok ReadResponseAction.ignore) =>
    match MasterSession.readLoop s2 destination task is_first seq rest with
    | (s3, tr2, out) => (s3, tr ++ tr2, out)
  | (s2, tr, Except.ok ReadResponseAction.readNext) =>
    match AssociationMap.get_mut s2.associations destination with
    | none =>
      (s2, tr, TaskOutcome.done (Except.error (TaskError.noSuchAssociation destination)))
    | some a =>
      match a.increment_seq with
      | (nseq, a2) =>
        let s3 := { s2 with associations := AssociationMap.put s2.associations destination a2 }
        match MasterSession.readLoop s3 destination task false nseq rest with
        | (s4, tr2, out) => (s4, tr ++ [Event.deadlineSet] ++ tr2, out)

/-- MasterSession::execute_read_task (session.rs lines 416-457): send
the initial request, set the deadline and run the read loop with
is_first = true. -/
def MasterSession.execute_read_task (s : MasterSession) (destination : Nat)
    (task : ReadTask) (events : List WaitEvent) :
    MasterSession × List Event × TaskOutcome :=
  match MasterSession.send_request s destination with
  | none =>
    (s, [], TaskOutcome.done (Except.error (TaskError.noSuchAssociation destination)))
  | some (s2, tr, seq) =>
    match MasterSession.readLoop s2 destination task true seq events with
    | (s3, tr2, out) => (s3, tr ++ [Event.deadlineSet] ++ tr2, out)

/-- MasterSession::run_read_task (session.rs lines 385-414): execute the
read exchange, then notify the task: completion on success while the
association still exists, on_task_error otherwise.  The result of the
exchange itself is returned unchanged. -/
def MasterSession.run_read_task (s : MasterSession) (destination : Nat)
    (task : ReadTask) (events : List WaitEvent) :
    MasterSession × List Event × TaskOutcome :=
  match MasterSession.execute_read_task s destination task events with
  | (s2, tr, TaskOutcome.pending) => (s2, tr, TaskOutcome.pending)
  | (s2, tr, TaskOutcome.done (Except.ok _)) =>
    match AssociationMap.get_mut s2.associations destination with
    | some _ => (s2, tr ++ [Event.taskComplete destination], TaskOutcome.done (Except.ok ()))
    | none =>
      (s2, tr ++ [Event.onTaskError (TaskError.noSuchAssociation destination)],
        TaskOutcome.done (Except.ok ()))
  | (s2, tr, TaskOutcome.done (Except.error e)) =>
    (s2, tr ++ [Event.onTaskError e], TaskOutcome.done (Except.error e))

/-- The error classification of MasterSession::run_task (session.rs
lines 263-271): Shutdown and Lower(link) surface as run errors; every
other task error is swallowed (Ok) so the session loop keeps running. -/
def MasterSession.run_task_classify : Except TaskError Unit → Except RunError Unit
| Except.ok _ => Except.ok ()
| Except.error TaskError.shutdown => Except.error RunError.shutdown
| Except.error (TaskError.lower e) => Except.error (RunError.link e)
| Except.error _ => Except.ok ()

/-- MasterSession::reset (session.rs lines 232-234): reset every
association with the run error. -/
def MasterSession.reset (s : MasterSession) (err : RunError) : MasterSession :=
  { s with associations := AssociationMap.reset s.associations err }

/-- A transport reader or writer; only whether it has been reset is
observable here. -/
structure Transport where
  wasReset : Bool
deriving DecidableEq, Repr

/-- TransportReader/TransportWriter reset. -/
def Transport.reset (_t : Transport) : Transport :=
  { wasReset := true }

/-- MasterSession::run (session.rs lines 90-113).  Each list element is
one loop iteration (the Now / NotBefore / None arm chosen by
get_next_task), abstracted as a state transformer returning the arm's
result.  An Ok iteration loops; the first Err resets every association
with the error, resets the transport writer and reader, and returns the
error.  None means the modelled iterations ran out with the loop still
running. -/
def MasterSession.run (s : MasterSession) (writer reader : Transport) :
    List (MasterSession → MasterSession × Except RunError Unit) →
    Option (MasterSession × Transport × Transport × RunError)
| [] => none
| f :: rest =>
  match f s with
  | (s2, Except.ok _) => MasterSession.run s2 writer reader rest
  | (s2, Except.error err) =>
    some (MasterSession.reset s2 err, writer.reset, reader.reset, err)

/-- Modelled from the spec: TripCloseCode (app/gen/enums.rs is not among
the sources; only its ControlCode caller and tests are).  The DNP3
trip-close-code field: Nul = 0, Close = 1, Trip = 2, Reserved = 3, with
the generated-enum convention of a variant capturing any other raw
value. -/
inductive TripCloseCode
| nul
| close
| trip
| reserved
| unknown (x : Nat)
deriving DecidableEq, Repr

/-- TripCloseCode::from, modelled from the spec as above. -/
def TripCloseCode.ofByte : Nat → TripCloseCode
| 0 => TripCloseCode.nul
| 1 => TripCloseCode.close
| 2 => TripCloseCode.trip
| 3 => TripCloseCode.reserved
| x => TripCloseCode.unknown x

/-- TripCloseCode::as_u8, modelled from the spec as above. -/
def TripCloseCode.as_u8 : TripCloseCode → Nat
| TripCloseCode.nul => 0
| TripCloseCode.close => 1
| TripCloseCode.trip => 2
| TripCloseCode.reserved => 3
| TripCloseCode.unknown x => x

/-- Modelled from the spec: OpType (app/gen/enums.rs is not among the
sources).  The DNP3 operation-type field: Nul = 0, PulseOn = 1,
PulseOff = 2, LatchOn = 3, LatchOff = 4, with the generated-enum
convention of a variant capturing any other raw value. -/
inductive OpType
| nul
| pulseOn
| pulseOff
| latchOn
| latchOff
| unknown (x : Nat)
deriving DecidableEq, Repr

/-- OpType::from, modelled from the spec as above. -/
def OpType.ofByte : Nat → OpType
| 0 => OpType.nul
| 1 => OpType.pulseOn
| 2 => OpType.pulseOff
| 3 => OpType.latchOn
| 4 => OpType.latchOff
| x => OpType.unknown x

/-- OpType::as_u8, modelled from the spec as above. -/
def OpType.as_u8 : OpType → Nat
| OpType.nul => 0
| OpType.pulseOn => 1
| OpType.pulseOff => 2
| OpType.latchOn => 3
| OpType.latchOff => 4
| OpType.unknown x => x

/-- ControlCode (src/src/app/types.rs lines 79-85). -/
structure ControlCode where
  tcc : TripCloseCode
  clear : Bool
  queue : Bool
  op_type : OpType
deriving DecidableEq, Repr

/-- types.rs line 88. -/
def ControlCode.TCC_MASK : Nat := 0b11000000

/-- types.rs line 89. -/
def ControlCode.CR_MASK : Nat := 0b00100000

/-- types.rs line 90. -/
def ControlCode.QU_MASK : Nat := 0b00010000

/-- types.rs line 91. -/
def ControlCode.OP_MASK : Nat := 0b00001111

/-- ControlCode::from (types.rs lines 93-100), on bytes as Nat. -/
def ControlCode.ofByte (x : Nat) : ControlCode :=
  { tcc := TripCloseCode.ofByte ((x &&& ControlCode.TCC_MASK) >>> 6)
    clear := (x &&& ControlCode.CR_MASK) != 0
    queue := (x &&& ControlCode.QU_MASK) != 0
    op_type := OpType.ofByte (x &&& ControlCode.OP_MASK) }

/-- ControlCode::as_u8 (types.rs lines 101-112); the left shift of the
trip-close bits is u8 arithmetic, hence the mod 256. -/
def ControlCode.as_u8 (c : ControlCode) : Nat :=
  let x : Nat := (c.tcc.as_u8 <<< 6) % 256
  let x := if c.clear then x ||| ControlCode.CR_MASK else x
  let x := if c.queue then x ||| ControlCode.QU_MASK else x
  x ||| c.op_type.as_u8

/-- A live association at address 5 used by the concrete witnesses. -/
def assocW : Association :=
  { address := 5, seq := 4, unsolValid := true, resetWith := none }

/-- An association whose unsolicited handler rejects fragments. -/
def assocInvalidW : Association :=
  { address := 9, seq := 0, unsolValid := false, resetWith := none }

/-- A session holding the two witness associations. -/
def sessionW : MasterSession :=
  { level := 0, timeout := 1, associations := [assocW, assocInvalidW], txBufferSize := 2048 }

/-- A well-formed single-fragment read response: RESPONSE, FIR, FIN,
CON clear, seq 3, IIN 7, objects parsed. -/
def respPlainW : Response :=
  { header := { function := FunctionKind.response
                control := { fir := true, fin := true, con := false, seq := 3 }
                iin := 7 }
    objects := Except.ok 0 }

/-- The same accepted shape but requesting confirmation (CON set). -/
def respConW : Response :=
  { header := { function := FunctionKind.response
                control := { fir := true, fin := true, con := true, seq := 3 }
                iin := 7 }
    objects := Except.ok 0 }

/-- A CON fragment that passes the source, sequence and FIR/FIN/CON
validations but whose object payload fails to parse. -/
def respBadObjectsW : Response :=
  { header := { function := FunctionKind.response
                control := { fir := true, fin := true, con := true, seq := 3 }
                iin := 7 }
    objects := Except.error { code := 0 } }

/-- An unsolicited fragment with CON set, seq 11, IIN 128. -/
def respUnsolW : Response :=
  { header := { function := FunctionKind.unsolicitedResponse
                control := { fir := true, fin := true, con := true, seq := 11 }
                iin := 128 }
    objects := Except.ok 0 }

/-- The witness read task. -/
def readTaskW : ReadTask := { id := 0 }

/-- A two-step non-read task (select then operate), as in
select-before-operate. -/
def sboTaskW : NonReadTask :=
  NonReadTask.mk 1 (some (NonReadTask.mk 2 none))

/-- A run-loop iteration that succeeds without touching the state. -/
def iterOkW : MasterSession → MasterSession × Except RunError Unit :=
  fun s => (s, Except.ok ())

/-- A run-loop iteration that surfaces a link error. -/
def iterLinkW : MasterSession → MasterSession × Except RunError Unit :=
  fun s => (s, Except.error (RunError.link { code := 3 }))

/-- A transport that has not been reset. -/
def transportW : Transport := { wasReset := false }

/-- The traces produced by handle_unsolicited never contain a deadline
computation or an outbound request, the state is returned unchanged and
the call never fails. -/
theorem handle_unsolicited_shape (s : MasterSession) (source : Nat) (r : Response) :
    ∃ tr, MasterSession.handle_unsolicited s source r = (s, tr, Except.ok ()) ∧
      tr.countP Event.isDeadlineSet = 0 ∧ tr.countP Event.isSendRequest = 0 := by
  unfold MasterSession.handle_unsolicited
  cases h : AssociationMap.get_mut s.associations source with
  | none => exact ⟨[Event.warn], rfl, rfl, rfl⟩
  | some a =>
    dsimp only
    by_cases hc : (a.unsolValid && r.header.control.con) = true
    · rw [if_pos hc]
      refine ⟨_, rfl, ?_, ?_⟩ <;>
        simp [List.countP_cons, Event.isDeadlineSet, Event.isSendRequest,
          MasterSession.confirm_unsolicited]
    · rw [if_neg hc]
      refine ⟨_, rfl, ?_, ?_⟩ <;>
        simp [List.countP_cons, Event.isDeadlineSet, Event.isSendRequest]

/-- handle_unsolicited on an unknown source: warn and drop. -/
theorem handle_unsolicited_none (s : MasterSession) (source : Nat) (r : Response)
    (h : AssociationMap.get_mut s.associations source = none) :
    MasterSession.handle_unsolicited s source r = (s, [Event.warn], Except.ok ()) := by
  unfold MasterSession.handle_unsolicited
  rw [h]

/-- handle_unsolicited on a known association: IIN application, handler
invocation, and a confirmation exactly when the handler accepts and the
fragment has CON set. -/
theorem handle_unsolicited_some (s : MasterSession) (source : Nat) (r : Response)
    (a : Association) (h : AssociationMap.get_mut s.associations source = some a) :
    MasterSession.handle_unsolicited s source r =
      (s, [Event.processIin source r.header.iin,
           Event.unsolHandler source r.header.iin a.unsolValid] ++
          (if a.unsolValid && r.header.control.con then
            [Event.confirmUnsolicited source r.header.control.seq] else []),
        Except.ok ()) := by
  unfold MasterSession.handle_unsolicited
  rw [h]
  dsimp only
  by_cases hc : (a.unsolValid && r.header.control.con) = true
  · rw [if_pos hc, if_pos hc]
    rfl
  · rw [if_neg hc, if_neg hc]
    simp

/-- Claim C9: MasterSession::new clamps the TX buffer size up to the
minimum of 249 bytes; a request of at least 249 is used as given; the
default size constant is 2048. -/
theorem claim_C9 (level timeout req : Nat) :
    (req < MasterSession.MIN_TX_BUFFER_SIZE →
      (MasterSession.new level timeout req).txBufferSize = 249) ∧
    (MasterSession.MIN_TX_BUFFER_SIZE ≤ req →
      (MasterSession.new level timeout req).txBufferSize = req) ∧
    MasterSession.MIN_TX_BUFFER_SIZE = 249 ∧
    MasterSession.DEFAULT_TX_BUFFER_SIZE = 2048 := by
  refine ⟨?_, ?_, rfl, rfl⟩
  · intro h
    simp only [MasterSession.new, if_pos h]
    rfl
  · intro h
    simp only [MasterSession.new, if_neg (Nat.not_lt.mpr h)]

/-- Witness for claim C9 at a too-small and a large request. -/
theorem claim_C9_witness :
    (MasterSession.new 0 1 100).txBufferSize = 249 ∧
    (MasterSession.new 0 1 2048).txBufferSize = 2048 :=
  ⟨(claim_C9 0 1 100).1 (by decide), (claim_C9 0 1 2048).2.1 (by decide)⟩

/-- Counterexample to claim C10 as stated: a ControlCode whose op_type
is the non-canonical captured value Unknown(3) encodes through as_u8 to
byte 3, which decodes back to the canonical LatchOn, not to itself. -/
theorem claim_C10_counterexample :
    ControlCode.ofByte (ControlCode.as_u8
        { tcc := TripCloseCode.nul, clear := false, queue := false,
          op_type := OpType.unknown 3 }) ≠
      { tcc := TripCloseCode.nul, clear := false, queue := false,
        op_type := OpType.unknown 3 } := by
  decide

set_option maxRecDepth 4000 in
/-- Claim C10 (amended): ControlCode::from and ControlCode::as_u8 are
mutually inverse on bytes: from(x).as_u8() = x for every byte x, and
from(cc.as_u8()) = cc for every cc in the image of from (the canonical
values); non-canonical Unknown payloads are not fixed. -/
theorem claim_C10 :
    (∀ x : Fin 256, ControlCode.as_u8 (ControlCode.ofByte x.val) = x.val) ∧
    (∀ x : Fin 256,
      ControlCode.ofByte (ControlCode.as_u8 (ControlCode.ofByte x.val)) =
        ControlCode.ofByte x.val) := by
  have h1 : ∀ x : Fin 256, ControlCode.as_u8 (ControlCode.ofByte x.val) = x.val := by decide
  exact ⟨h1, fun x => by rw [h1 x]⟩

/-- Claim C6: handle_unsolicited drops fragments from unknown sources
with a warning, no confirmation and no error; for a known association it
applies the IIN, invokes the unsolicited handler, and sends an
unsolicited confirmation carrying the fragment's own sequence number
exactly when the handler returned valid and the fragment's CON bit is
set. -/
theorem claim_C6 :
    (∀ (s : MasterSession) (source : Nat) (r : Response),
      AssociationMap.get_mut s.associations source = none →
      MasterSession.handle_unsolicited s source r = (s, [Event.warn], Except.ok ())) ∧
    (∀ (s : MasterSession) (source : Nat) (r : Response) (a : Association),
      AssociationMap.get_mut s.associations source = some a →
      MasterSession.handle_unsolicited s source r =
        (s, [Event.processIin source r.header.iin,
             Event.unsolHandler source r.header.iin a.unsolValid] ++
            (if a.unsolValid && r.header.control.con then
              [Event.confirmUnsolicited source r.header.control.seq] else []),
          Except.ok ())) :=
  ⟨handle_unsolicited_none, handle_unsolicited_some⟩

/-- Witness for claim C6: a known association with a valid handler and a
CON unsolicited fragment yields IIN application, handler call and one
unsolicited confirm carrying seq 11. -/
theorem claim_C6_witness :
    MasterSession.handle_unsolicited sessionW 5 respUnsolW =
      (sessionW, [Event.processIin 5 128, Event.unsolHandler 5 128 true,
        Event.confirmUnsolicited 5 11], Except.ok ()) := by
  have h := claim_C6.2 sessionW 5 respUnsolW assocW (by decide)
  simpa [assocW, respUnsolW] using h

/-- Claim C7: a closed control queue is the only error of
process_message (Shutdown); an association-targeted message whose
address is unknown invokes that message's failure callback with
NoSuchAssociation and still returns Ok, so the session loop continues. -/
theorem claim_C7 (s : MasterSession) (c : Bool) :
    (MasterSession.process_message s c none = (s, [], Except.error RunError.shutdown)) ∧
    (∀ addr, AssociationMap.get_mut s.associations addr = none →
      MasterSession.process_message s c (some (MessageKind.association addr)) =
        (s, [Event.assocFailure addr (TaskError.noSuchAssociation addr)], Except.ok ())) ∧
    (∀ (m : MessageKind) (s2 : MasterSession) (tr : List Event) (e : RunError),
      MasterSession.process_message s c (some m) ≠ (s2, tr, Except.error e)) := by
  refine ⟨rfl, ?_, ?_⟩
  · intro addr h
    unfold MasterSession.process_message
    dsimp only
    rw [h]
  · intro m s2 tr e hcontra
    match m with
    | MessageKind.master mm =>
      cases mm <;>
        simp [MasterSession.process_message, MasterSession.process_master_message,
          AssociationMap.register, Prod.mk.injEq] at hcontra
    | MessageKind.association addr =>
      unfold MasterSession.process_message at hcontra
      dsimp only at hcontra
      cases hl : AssociationMap.get_mut s.associations addr <;>
        rw [hl] at hcontra <;>
        simp [Prod.mk.injEq] at hcontra

/-- Witness for claim C7: an association message for unknown address 7
invokes the failure callback with NoSuchAssociation and returns Ok. -/
theorem claim_C7_witness :
    MasterSession.process_message sessionW true (some (MessageKind.association 7)) =
      (sessionW, [Event.assocFailure 7 (TaskError.noSuchAssociation 7)], Except.ok ()) :=
  (claim_C7 sessionW true).2.1 7 (by decide)

/-- Claim C4: during a read exchange, a non-unsolicited fragment with
mismatched source or sequence is discarded with a warning and does not
fail the task; a fragment matching both is checked in order: FIR set
while not first fails with UnexpectedFir, FIR clear on the first
expected fragment fails with NeverReceivedFir, and (the FIR checks
passing) FIN and CON both clear fails with NonFinWithoutCon. -/
theorem claim_C4 (s : MasterSession) (dest : Nat) (first : Bool) (seq : Nat)
    (task : ReadTask) (src : Nat) (r : Response)
    (hu : r.header.function.is_unsolicited = false) :
    (src ≠ dest →
      MasterSession.process_read_response s dest first seq task (some (src, r)) =
        (s, [Event.warn], Except.ok ReadResponseAction.ignore)) ∧
    (src = dest → r.header.control.seq ≠ seq →
      MasterSession.process_read_response s dest first seq task (some (src, r)) =
        (s, [Event.warn], Except.ok ReadResponseAction.ignore)) ∧
    (src = dest → r.header.control.seq = seq →
      r.header.control.fir = true → first = false →
      MasterSession.process_read_response s dest first seq task (some (src, r)) =
        (s, [], Except.error TaskError.unexpectedFir)) ∧
    (src = dest → r.header.control.seq = seq →
      r.header.control.fir = false → first = true →
      MasterSession.process_read_response s dest first seq task (some (src, r)) =
        (s, [], Except.error TaskError.neverReceivedFir)) ∧
    (src = dest → r.header.control.seq = seq → r.header.control.fir = first →
      r.header.control.fin = false → r.header.control.con = false →
      MasterSession.process_read_response s dest first seq task (some (src, r)) =
        (s, [], Except.error TaskError.nonFinWithoutCon)) := by
  refine ⟨?_, ?_, ?_, ?_, ?_⟩
  · intro hsrc
    simp [MasterSession.process_read_response, hu, hsrc]
  · intro hsrc hseq
    subst hsrc
    simp [MasterSession.process_read_response, hu, hseq]
  · intro hsrc hseq hfir hfirst
    subst hsrc hseq hfirst
    simp [MasterSession.process_read_response, hu, hfir]
  · intro hsrc hseq hfir hfirst
    subst hsrc hseq hfirst
    simp [MasterSession.process_read_response, hu, hfir]
  · intro hsrc hseq hfir hfin hcon
    subst hsrc hseq hfir
    simp [MasterSession.process_read_response, hu, hfin, hcon,
      Bool.and_not_self, Bool.not_and_self]

/-- Witness for claim C4: a fragment with FIN and CON clear during a
continued read exchange (is_first = false, FIR clear) fails with
NonFinWithoutCon. -/
theorem claim_C4_witness :
    MasterSession.process_read_response sessionW 5 false 3 readTaskW
      (some (5, { header := { function := FunctionKind.response
                              control := { fir := false, fin := false, con := false, seq := 3 }
                              iin := 0 }
                  objects := Except.ok 0 })) =
      (sessionW, [], Except.error TaskError.nonFinWithoutCon) :=
  (claim_C4 sessionW 5 false 3 readTaskW 5
    { header := { function := FunctionKind.response
                  control := { fir := false, fin := false, con := false, seq := 3 }
                  iin := 0 }
      objects := Except.ok 0 } rfl).2.2.2.2 rfl rfl rfl rfl rfl

/-- The traces produced by validate_non_read_response never contain a
deadline computation or an outbound request. -/
theorem validate_non_read_trace_shape (s : MasterSession) (dest seq : Nat)
    (p : Option (Nat × Response)) :
    ((MasterSession.validate_non_read_response s dest seq p).2.1).countP Event.isDeadlineSet = 0 ∧
    ((MasterSession.validate_non_read_response s dest seq p).2.1).countP Event.isSendRequest = 0 := by
  match p with
  | none => simp [MasterSession.validate_non_read_response]
  | some (src, r) =>
    unfold MasterSession.validate_non_read_response
    dsimp only
    by_cases hun : r.header.function.is_unsolicited = true
    · rw [if_pos hun]
      obtain ⟨tr0, hH, hd, hs2⟩ := handle_unsolicited_shape s src r
      rw [hH]
      exact ⟨hd, hs2⟩
    · rw [if_neg hun]
      by_cases h1 : (src != dest) = true
      · rw [if_pos h1]
        simp [Event.isDeadlineSet, Event.isSendRequest]
      · rw [if_neg h1]
        by_cases h2 : (r.header.control.seq != seq) = true
        · rw [if_pos h2]
          simp [Event.isDeadlineSet, Event.isSendRequest]
        · rw [if_neg h2]
          by_cases h3 : (!r.header.control.is_fir_and_fin) = true
          · rw [if_pos h3]
            simp
          · rw [if_neg h3]
            simp

/-- Claim C3: during a non-read exchange, an unsolicited fragment is
handed to the unsolicited path and the wait continues; wrong source or
wrong sequence is discarded with a warning and the wait continues on the
same deadline (no new deadline is computed); a matching fragment without
FIR and FIN both set fails the task with MultiFragmentResponse; only a
fragment with FIR and FIN both set is delivered to the task. -/
theorem claim_C3 :
    (∀ (s : MasterSession) (dest seq src : Nat) (r : Response),
      r.header.function.is_unsolicited = true →
      MasterSession.validate_non_read_response s dest seq (some (src, r)) =
        ((MasterSession.handle_unsolicited s src r).1,
         (MasterSession.handle_unsolicited s src r).2.1, Except.ok none)) ∧
    (∀ (s : MasterSession) (dest seq src : Nat) (r : Response),
      r.header.function.is_unsolicited = false → src ≠ dest →
      MasterSession.validate_non_read_response s dest seq (some (src, r)) =
        (s, [Event.warn], Except.ok none)) ∧
    (∀ (s : MasterSession) (dest seq src : Nat) (r : Response),
      r.header.function.is_unsolicited = false → src = dest →
      r.header.control.seq ≠ seq →
      MasterSession.validate_non_read_response s dest seq (some (src, r)) =
        (s, [Event.warn], Except.ok none)) ∧
    (∀ (s : MasterSession) (dest seq src : Nat) (r : Response)
      (task : NonReadTask) (rest : List WaitEvent),
      r.header.function.is_unsolicited = false → src = dest →
      r.header.control.seq = seq → r.header.control.is_fir_and_fin = false →
      MasterSession.validate_non_read_response s dest seq (some (src, r)) =
        (s, [], Except.error TaskError.multiFragmentResponse) ∧
      MasterSession.nonReadLoop s dest task seq (WaitEvent.fragment (some (src, r)) :: rest) =
        (s, [Event.onTaskError TaskError.multiFragmentResponse],
         TaskOutcome.done (Except.error TaskError.multiFragmentResponse))) ∧
    (∀ (s : MasterSession) (dest seq : Nat) (p : Option (Nat × Response))
      (s2 : MasterSession) (tr : List Event) (r2 : Response),
      MasterSession.validate_non_read_response s dest seq p = (s2, tr, Except.ok (some r2)) →
      r2.header.control.fir = true ∧ r2.header.control.fin = true) ∧
    (∀ (s : MasterSession) (dest seq : Nat) (p : Option (Nat × Response))
      (s2 : MasterSession) (tr : List Event) (task : NonReadTask) (rest : List WaitEvent),
      MasterSession.validate_non_read_response s dest seq p = (s2, tr, Except.ok none) →
      tr.countP Event.isDeadlineSet = 0 ∧
      MasterSession.nonReadLoop s dest task seq (WaitEvent.fragment p :: rest) =
        ((MasterSession.nonReadLoop s2 dest task seq rest).1,
         tr ++ (MasterSession.nonReadLoop s2 dest task seq rest).2.1,
         (MasterSession.nonReadLoop s2 dest task seq rest).2.2)) := by
  refine ⟨?_, ?_, ?_, ?_, ?_, ?_⟩
  · intro s dest seq src r hu
    obtain ⟨tr0, hH, -, -⟩ := handle_unsolicited_shape s src r
    simp [MasterSession.validate_non_read_response, hu, hH]
  · intro s dest seq src r hu hsrc
    simp [MasterSession.validate_non_read_response, hu, hsrc]
  · intro s dest seq src r hu hsrc hseq
    subst hsrc
    simp [MasterSession.validate_non_read_response, hu, hseq]
  · intro s dest seq src r task rest hu hsrc hseq hff
    subst hsrc hseq
    have hv : MasterSession.validate_non_read_response s src r.header.control.seq
        (some (src, r)) = (s, [], Except.error TaskError.multiFragmentResponse) := by
      simp [MasterSession.validate_non_read_response, hu, hff]
    refine ⟨hv, ?_⟩
    simp only [MasterSession.nonReadLoop]
    rw [hv]
    simp
  · intro s dest seq p s2 tr r2 h
    match p with
    | none => simp [MasterSession.validate_non_read_response] at h
    | some (src, r) =>
      unfold MasterSession.validate_non_read_response at h
      dsimp only at h
      by_cases hun : r.header.function.is_unsolicited = true
      · rw [if_pos hun] at h
        obtain ⟨tr0, hH, -, -⟩ := handle_unsolicited_shape s src r
        rw [hH] at h
        simp at h
      · rw [if_neg hun] at h
        by_cases h1 : (src != dest) = true
        · rw [if_pos h1] at h
          simp at h
        · rw [if_neg h1] at h
          by_cases h2 : (r.header.control.seq != seq) = true
          · rw [if_pos h2] at h
            simp at h
          · rw [if_neg h2] at h
            by_cases h3 : (!r.header.control.is_fir_and_fin) = true
            · rw [if_pos h3] at h
              simp at h
            · rw [if_neg h3] at h
              have h4 : r.header.control.is_fir_and_fin = true := by
                revert h3
                cases r.header.control.is_fir_and_fin <;> simp
              simp only [Prod.mk.injEq, Except.ok.injEq, Option.some.injEq] at h
              obtain ⟨-, -, hr⟩ := h
              subst hr
              revert h4
              unfold ControlField.is_fir_and_fin
              cases r.header.control.fir <;> cases r.header.control.fin <;> simp
  · intro s dest seq p s2 tr task rest h
    constructor
    · have hd := (validate_non_read_trace_shape s dest seq p).1
      rw [h] at hd
      exact hd
    · simp only [MasterSession.nonReadLoop]
      rw [h]

/-- Witness for claim C3: a fragment from the wrong source (9 instead of
5) is discarded with a warning and the wait continues. -/
theorem claim_C3_witness :
    MasterSession.validate_non_read_response sessionW 5 3 (some (9, respPlainW)) =
      (sessionW, [Event.warn], Except.ok none) :=
  claim_C3.2.1 sessionW 5 3 9 respPlainW rfl (by decide)

/-- Counterexample to claim C1 as stated: this CON=1 read-response
fragment passes the source check (5 = 5), the sequence check (3 = 3) and
the FIR/FIN/CON validation (FIR on the first fragment, FIN set), yet the
session writes no confirmation at all: its object payload fails to
parse, so process_read_response fails the task with BadResponse before
reaching the confirmation step.  The same gap exists when the
association was removed between validation and delivery. -/
theorem claim_C1_counterexample :
    respBadObjectsW.header.control.con = true ∧
    respBadObjectsW.header.function.is_unsolicited = false ∧
    respBadObjectsW.header.control.fir = true ∧
    respBadObjectsW.header.control.fin = true ∧
    respBadObjectsW.header.control.seq = 3 ∧
    MasterSession.process_read_response sessionW 5 true 3 readTaskW
        (some (5, respBadObjectsW)) =
      (sessionW, [], Except.error (TaskError.badResponse { code := 0 })) ∧
    List.countP Event.isConfirm ([] : List Event) = 0 :=
  ⟨rfl, rfl, rfl, rfl, rfl, rfl, rfl⟩

/-- Claim C1 (amended): for every received fragment with CON=1 that the
session accepts and delivers — a read-response fragment that passes
source, sequence and FIR/FIN/CON validation AND whose association is
still registered AND whose objects parse, or an unsolicited fragment
from a known association whose handler returns valid — exactly one
confirmation carrying that fragment's matched sequence number is written
to the transport, and the processing of the fragment writes no outbound
request (requests are only written by send_request when an exchange
starts or restarts, after the processing trace), so the confirmation
precedes any next outbound request; an accepted fragment with CON=0
produces no confirmation. -/
theorem claim_C1 :
    (∀ (s : MasterSession) (dest : Nat) (first : Bool) (seq : Nat) (task : ReadTask)
      (src : Nat) (r : Response) (a : Association) (n : Nat),
      r.header.function.is_unsolicited = false → src = dest →
      r.header.control.seq = seq → r.header.control.fir = first →
      (r.header.control.fin || r.header.control.con) = true →
      AssociationMap.get_mut s.associations dest = some a →
      r.objects = Except.ok n →
      MasterSession.process_read_response s dest first seq task (some (src, r)) =
        (s,
         (if r.header.control.con then
            [Event.readTaskResponse dest r.header.iin, Event.confirmSolicited dest seq]
          else [Event.readTaskResponse dest r.header.iin]),
         Except.ok (if r.header.control.fin then ReadResponseAction.complete
          else ReadResponseAction.readNext)) ∧
      (MasterSession.process_read_response s dest first seq task (some (src, r))).2.1.countP
          Event.isConfirm = (if r.header.control.con then 1 else 0) ∧
      (MasterSession.process_read_response s dest first seq task (some (src, r))).2.1.count
          (Event.confirmSolicited dest seq) = (if r.header.control.con then 1 else 0) ∧
      (MasterSession.process_read_response s dest first seq task (some (src, r))).2.1.countP
          Event.isSendRequest = 0) ∧
    (∀ (s : MasterSession) (source : Nat) (r : Response) (a : Association),
      AssociationMap.get_mut s.associations source = some a →
      a.unsolValid = true →
      MasterSession.handle_unsolicited s source r =
        (s, [Event.processIin source r.header.iin,
             Event.unsolHandler source r.header.iin true] ++
            (if r.header.control.con then
              [Event.confirmUnsolicited source r.header.control.seq] else []),
          Except.ok ()) ∧
      (MasterSession.handle_unsolicited s source r).2.1.countP Event.isConfirm =
        (if r.header.control.con then 1 else 0) ∧
      (MasterSession.handle_unsolicited s source r).2.1.count
          (Event.confirmUnsolicited source r.header.control.seq) =
        (if r.header.control.con then 1 else 0) ∧
      (MasterSession.handle_unsolicited s source r).2.1.countP Event.isSendRequest = 0) := by
  constructor
  · intro s dest first seq task src r a n hu hsrc hseq hfir hfc ha hobj
    subst hsrc hseq
    have heq : MasterSession.process_read_response s src first r.header.control.seq task
        (some (src, r)) =
        (s,
         (if r.header.control.con then
            [Event.readTaskResponse src r.header.iin,
             Event.confirmSolicited src r.header.control.seq]
          else [Event.readTaskResponse src r.header.iin]),
         Except.ok (if r.header.control.fin then ReadResponseAction.complete
          else ReadResponseAction.readNext)) := by
      cases hfin : r.header.control.fin <;> cases hcon : r.header.control.con <;>
        rw [hfin, hcon] at hfc <;>
        simp_all [MasterSession.process_read_response, hu, ha, hobj,
          MasterSession.confirm_solicited, Bool.and_not_self, Bool.not_and_self]
    refine ⟨heq, ?_, ?_, ?_⟩ <;>
      rw [heq] <;>
      cases hcon : r.header.control.con <;>
        simp [List.count_cons, List.countP_cons, Event.isConfirm, Event.isSendRequest]
  · intro s source r a ha hv
    have heq : MasterSession.handle_unsolicited s source r =
        (s, [Event.processIin source r.header.iin,
             Event.unsolHandler source r.header.iin true] ++
            (if r.header.control.con then
              [Event.confirmUnsolicited source r.header.control.seq] else []),
          Except.ok ()) := by
      have h := handle_unsolicited_some s source r a ha
      rw [hv] at h
      simpa using h
    refine ⟨heq, ?_, ?_, ?_⟩ <;>
      rw [heq] <;>
      cases hcon : r.header.control.con <;>
        simp [List.count_cons, List.countP_cons, Event.isConfirm, Event.isSendRequest]

/-- Witness for claim C1: an accepted CON=1 single-fragment read
response produces exactly one solicited confirmation carrying the
matched sequence number 3, and no outbound request, in its processing
trace. -/
theorem claim_C1_witness :
    MasterSession.process_read_response sessionW 5 true 3 readTaskW (some (5, respConW)) =
      (sessionW, [Event.readTaskResponse 5 7, Event.confirmSolicited 5 3],
        Except.ok ReadResponseAction.complete) ∧
    (MasterSession.process_read_response sessionW 5 true 3 readTaskW
        (some (5, respConW))).2.1.countP Event.isConfirm = 1 ∧
    (MasterSession.process_read_response sessionW 5 true 3 readTaskW
        (some (5, respConW))).2.1.countP Event.isSendRequest = 0 := by
  have h := claim_C1.1 sessionW 5 true 3 readTaskW 5 respConW assocW 0 rfl rfl rfl rfl rfl
    (by decide) rfl
  exact ⟨h.1.trans (by rfl), (by rfl : (1 : Nat) = _).symm.trans h.2.1,
    (by rfl : (0 : Nat) = _).symm.trans h.2.2.2⟩

/-- Claim C2 (violated by the code): on the solicited read path the
session delivers an accepted fragment to the read task handler without
ever applying the fragment's IIN to the association: the processing
trace of the accepted fragment contains the handler delivery and no
processIin event at all.  The non-read path (session.rs line 316) and
the unsolicited path (session.rs line 585) both call process_iin before
the handler; process_read_response (session.rs lines 516-517) does
not. -/
theorem claim_C2 :
    MasterSession.process_read_response sessionW 5 true 3 readTaskW (some (5, respPlainW)) =
      (sessionW, [Event.readTaskResponse 5 7], Except.ok ReadResponseAction.complete) ∧
    List.countP Event.isProcessIin [Event.readTaskResponse 5 7] = 0 ∧
    List.countP Event.isHandlerCall [Event.readTaskResponse 5 7] = 1 :=
  ⟨rfl, rfl, rfl⟩



/-- Claim C8: entering a non-read exchange sends a request carrying the
association's current sequence number and stores the incremented value
(bump_seq); when the task's handle returns Some(next) on a valid
response, the session replaces the task with next and sends a new
request carrying the freshly incremented sequence number followed by a
fresh response deadline, restarting the exchange; when handle returns
None the exchange returns success. -/
theorem claim_C8 :
    (∀ (s : MasterSession) (dest : Nat) (task : NonReadTask) (events : List WaitEvent)
      (a : Association), AssociationMap.get_mut s.associations dest = some a →
      MasterSession.send_request s dest =
        some (MasterSession.bump_seq s dest a, [Event.sendRequest dest a.seq], a.seq) ∧
      MasterSession.run_non_read_task s dest task events =
        ((MasterSession.nonReadLoop (MasterSession.bump_seq s dest a) dest task a.seq events).1,
         Event.sendRequest dest a.seq :: Event.deadlineSet ::
           (MasterSession.nonReadLoop (MasterSession.bump_seq s dest a) dest task a.seq events).2.1,
         (MasterSession.nonReadLoop (MasterSession.bump_seq s dest a) dest task a.seq events).2.2)) ∧
    (∀ (s : MasterSession) (dest seq : Nat) (i : Nat) (nt : NonReadTask)
      (rest : List WaitEvent) (src : Nat) (r : Response) (a : Association),
      r.header.function.is_unsolicited = false → src = dest →
      r.header.control.seq = seq → r.header.control.is_fir_and_fin = true →
      AssociationMap.get_mut s.associations dest = some a →
      MasterSession.nonReadLoop s dest (NonReadTask.mk i (some nt)) seq
          (WaitEvent.fragment (some (src, r)) :: rest) =
        ((MasterSession.nonReadLoop (MasterSession.bump_seq s dest a) dest nt a.seq rest).1,
         Event.processIin dest r.header.iin :: Event.taskHandle dest r.header.iin ::
           Event.sendRequest dest a.seq :: Event.deadlineSet ::
           (MasterSession.nonReadLoop (MasterSession.bump_seq s dest a) dest nt a.seq rest).2.1,
         (MasterSession.nonReadLoop (MasterSession.bump_seq s dest a) dest nt a.seq rest).2.2)) ∧
    (∀ (s : MasterSession) (dest seq : Nat) (i : Nat) (rest : List WaitEvent)
      (src : Nat) (r : Response) (a : Association),
      r.header.function.is_unsolicited = false → src = dest →
      r.header.control.seq = seq → r.header.control.is_fir_and_fin = true →
      AssociationMap.get_mut s.associations dest = some a →
      MasterSession.nonReadLoop s dest (NonReadTask.mk i none) seq
          (WaitEvent.fragment (some (src, r)) :: rest) =
        (s, [Event.processIin dest r.header.iin, Event.taskHandle dest r.header.iin],
         TaskOutcome.done (Except.ok ()))) := by
  have hsend : ∀ (s : MasterSession) (dest : Nat) (a : Association),
      AssociationMap.get_mut s.associations dest = some a →
      MasterSession.send_request s dest =
        some (MasterSession.bump_seq s dest a, [Event.sendRequest dest a.seq], a.seq) := by
    intro s dest a ha
    unfold MasterSession.send_request MasterSession.bump_seq
    rw [ha]
    simp [Association.increment_seq]
  have hvalid : ∀ (s : MasterSession) (dest : Nat) (src : Nat) (r : Response),
      r.header.function.is_unsolicited = false → src = dest →
      r.header.control.is_fir_and_fin = true →
      MasterSession.validate_non_read_response s dest r.header.control.seq (some (src, r)) =
        (s, [], Except.ok (some r)) := by
    intro s dest src r hu hsrc hff
    subst hsrc
    simp [MasterSession.validate_non_read_response, hu, hff]
  refine ⟨?_, ?_, ?_⟩
  · intro s dest task events a ha
    refine ⟨hsend s dest a ha, ?_⟩
    unfold MasterSession.run_non_read_task
    rw [hsend s dest a ha]
    dsimp only
    rcases hrec : MasterSession.nonReadLoop (MasterSession.bump_seq s dest a) dest task
        a.seq events with ⟨s3, tr2, out⟩
    simp
  · intro s dest seq i nt rest src r a hu hsrc hseq hff ha
    subst hsrc hseq
    simp only [MasterSession.nonReadLoop]
    rw [hvalid s src src r hu rfl hff]
    dsimp only
    rw [ha]
    dsimp only [NonReadTask.next]
    rw [hsend s src a ha]
    dsimp only
    rcases hrec : MasterSession.nonReadLoop (MasterSession.bump_seq s src a) src nt
        a.seq rest with ⟨s3, tr2, out⟩
    simp
  · intro s dest seq i rest src r a hu hsrc hseq hff ha
    subst hsrc hseq
    simp only [MasterSession.nonReadLoop]
    rw [hvalid s src src r hu rfl hff]
    dsimp only
    rw [ha]
    dsimp only [NonReadTask.next]
    simp

/-- Witness for claim C8: a valid single-fragment response to a
last-step non-read task (handle returns None) completes the exchange
with success after IIN application and the task handle call. -/
theorem claim_C8_witness :
    MasterSession.nonReadLoop sessionW 5 (NonReadTask.mk 2 none) 3
        [WaitEvent.fragment (some (5, respPlainW))] =
      (sessionW, [Event.processIin 5 7, Event.taskHandle 5 7],
        TaskOutcome.done (Except.ok ())) :=
  claim_C8.2.2 sessionW 5 3 2 [] 5 respPlainW assocW rfl rfl rfl rfl (by decide)

/-- Claim C5: run_task surfaces only Shutdown and link errors as run
errors — every other task failure (timeout, MultiFragmentResponse,
UnexpectedFir, NeverReceivedFir, NonFinWithoutCon, NoSuchAssociation,
parse or command-validation errors) yields Ok, so the session loop keeps
running; run() loops over Ok iterations, and when an iteration surfaces
a run error, every association is reset with that error and both the
transport writer and reader are reset before the error is returned. -/
theorem claim_C5 :
    (∀ (e : TaskError) (re : RunError),
      MasterSession.run_task_classify (Except.error e) = Except.error re ↔
        ((e = TaskError.shutdown ∧ re = RunError.shutdown) ∨
         (∃ l, e = TaskError.lower l ∧ re = RunError.link l))) ∧
    (∀ (addr : Nat) (perr : ObjectParseError),
      MasterSession.run_task_classify (Except.error TaskError.responseTimeout) = Except.ok () ∧
      MasterSession.run_task_classify (Except.error TaskError.multiFragmentResponse) = Except.ok () ∧
      MasterSession.run_task_classify (Except.error TaskError.unexpectedFir) = Except.ok () ∧
      MasterSession.run_task_classify (Except.error TaskError.neverReceivedFir) = Except.ok () ∧
      MasterSession.run_task_classify (Except.error TaskError.nonFinWithoutCon) = Except.ok () ∧
      MasterSession.run_task_classify (Except.error (TaskError.noSuchAssociation addr)) = Except.ok () ∧
      MasterSession.run_task_classify (Except.error (TaskError.badResponse perr)) = Except.ok () ∧
      MasterSession.run_task_classify (Except.error TaskError.unexpectedResponseHeaders) = Except.ok () ∧
      MasterSession.run_task_classify (Except.error TaskError.writeError) = Except.ok ()) ∧
    (∀ (s s2 : MasterSession) (w rd : Transport)
      (f : MasterSession → MasterSession × Except RunError Unit)
      (fs : List (MasterSession → MasterSession × Except RunError Unit)),
      f s = (s2, Except.ok ()) →
      MasterSession.run s w rd (f :: fs) = MasterSession.run s2 w rd fs) ∧
    (∀ (s s2 : MasterSession) (w rd : Transport)
      (f : MasterSession → MasterSession × Except RunError Unit)
      (fs : List (MasterSession → MasterSession × Except RunError Unit)) (e : RunError),
      f s = (s2, Except.error e) →
      MasterSession.run s w rd (f :: fs) =
        some (MasterSession.reset s2 e, w.reset, rd.reset, e)) ∧
    (∀ (s : MasterSession) (w rd : Transport)
      (fs : List (MasterSession → MasterSession × Except RunError Unit))
      (s2 : MasterSession) (w2 rd2 : Transport) (err : RunError),
      MasterSession.run s w rd fs = some (s2, w2, rd2, err) →
      (∀ a ∈ s2.associations, a.resetWith = some err) ∧
      w2.wasReset = true ∧ rd2.wasReset = true) := by
  refine ⟨?_, ?_, ?_, ?_, ?_⟩
  · intro e re
    cases e <;> cases re <;>
      simp [MasterSession.run_task_classify, Except.error.injEq] <;>
      exact eq_comm
  · intro addr perr
    refine ⟨rfl, rfl, rfl, rfl, rfl, rfl, rfl, rfl, rfl⟩
  · intro s s2 w rd f fs h
    simp only [MasterSession.run]
    rw [h]
  · intro s s2 w rd f fs e h
    simp only [MasterSession.run]
    rw [h]
  · intro s w rd fs
    induction fs generalizing s with
    | nil =>
      intro s2 w2 rd2 err h
      simp [MasterSession.run] at h
    | cons f rest ih =>
      intro s2 w2 rd2 err h
      rw [MasterSession.run] at h
      rcases hf : f s with ⟨s3, res⟩
      rw [hf] at h
      cases res with
      | ok u => exact ih s3 s2 w2 rd2 err h
      | error e =>
        dsimp only at h
        simp only [Option.some.injEq, Prod.mk.injEq] at h
        obtain ⟨hs, hw, hrd, he⟩ := h
        subst hs hw hrd he
        refine ⟨?_, rfl, rfl⟩
        intro a hmem
        unfold MasterSession.reset AssociationMap.reset at hmem
        simp only [List.mem_map] at hmem
        obtain ⟨b, -, hb⟩ := hmem
        rw [show a = b.reset e from hb.symm]
        rfl

/-- Witness for claim C5: a successful iteration followed by a link
failure: run returns the link error with every association reset with it
and both transports reset. -/
theorem claim_C5_witness :
    MasterSession.run sessionW transportW transportW [iterOkW, iterLinkW] =
      some (MasterSession.reset sessionW (RunError.link { code := 3 }),
        Transport.reset transportW, Transport.reset transportW,
        RunError.link { code := 3 }) ∧
    (∀ a ∈ (MasterSession.reset sessionW (RunError.link { code := 3 })).associations,
      a.resetWith = some (RunError.link { code := 3 })) := by
  have h1 := claim_C5.2.2.1 sessionW sessionW transportW transportW iterOkW [iterLinkW] rfl
  have h2 := claim_C5.2.2.2.1 sessionW sessionW transportW transportW iterLinkW []
    (RunError.link { code := 3 }) rfl
  refine ⟨h1.trans h2, ?_⟩
  have h3 := claim_C5.2.2.2.2 sessionW transportW transportW [iterOkW, iterLinkW]
    (MasterSession.reset sessionW (RunError.link { code := 3 }))
    (Transport.reset transportW) (Transport.reset transportW)
    (RunError.link { code := 3 }) (h1.trans h2)
  exact h3.1
